import Mathlib

/-!
Shallow embedding of the `shop` package (src/shop.go): the product resource
model, JSON body/query decoding, error classification via the `ErrNotFound`
sentinel and `errors.Is`, and the five HTTP handler operations
(Create/Get/List/Update/Delete).  Handlers are modelled as pure functions
from a request and a service to the response written, the log entries
emitted, and whether the backing service was invoked.
-/

namespace Shop

/-- A JSON value, the wire form produced by `encoding/json`.  Numbers are
modelled as rationals: Go's float64-to-JSON round trip is exact (shortest
round-tripping representation), which the rational model preserves. -/
inductive Json where
  | null
  | bool (b : Bool)
  | num (q : Rat)
  | str (s : String)
  | arr (elems : List Json)
  | obj (fields : List (String × Json))

/-- The JSON kind name, as it appears in `encoding/json` type-mismatch errors. -/
def Json.kind : Json → String
  | .null => "null"
  | .bool _ => "bool"
  | .num _ => "number"
  | .str _ => "string"
  | .arr _ => "array"
  | .obj _ => "object"

/-- A Go error value.  `errNotFound` is the package sentinel
`ErrNotFound = errors.New("shop: not found")`; `base` is any other distinct
error value (the tag models pointer identity of a fresh `errors.New`);
`wrap` is `fmt.Errorf("...: %w", inner)`; the `decode` constructors are the
errors produced by `encoding/json` / `gorilla/schema` decoding. -/
inductive GoError where
  | errNotFound
  | base (tag : Nat) (msg : String)
  | wrap (msg : String) (inner : GoError)
  | decodeSyntax
  | decodeType (expected got : String)
  | decodeUnknownKey (key : String)
deriving DecidableEq

/-- Identity comparison of Go error values (`err == target`): the sentinel is
identical only to itself, two `errors.New` values are identical exactly when
they are the same allocation (same tag), and a freshly allocated wrapper or
decoder error is never identical to a pre-existing target. -/
def GoError.idEq : GoError → GoError → Bool
  | .errNotFound, .errNotFound => true
  | .base t _, .base u _ => t == u
  | _, _ => false

/-- `errors.Is(err, target)`: walk the `Unwrap` chain of `err`, comparing each
link to `target` by identity. -/
def errorsIs : GoError → GoError → Bool
  | .wrap m inner, target =>
      GoError.idEq (.wrap m inner) target || errorsIs inner target
  | e, target => GoError.idEq e target

/-- The wrapping chain of an error: the error itself followed by everything
`Unwrap` reaches. -/
def GoError.chain : GoError → List GoError
  | .wrap m inner => .wrap m inner :: inner.chain
  | e => [e]

/-- `type Price float64` — modelled as a rational (see `Json.num`). -/
abbrev Price := Rat

/-- `Product` from src/shop.go: id, name, description, price, each with an
`omitempty` JSON tag. -/
structure Product where
  id : String := ""
  name : String := ""
  description : String := ""
  price : Price := 0
deriving DecidableEq

/-- `ProductFilter struct{}` — the filter for List requests has no fields. -/
structure ProductFilter where
deriving DecidableEq

/-- `ProductUpdate struct{}` — the PATCH body type has no fields. -/
structure ProductUpdate where
deriving DecidableEq

/-- `encoding/json` marshalling of `Product`: an object holding the fields in
declaration order, each omitted when it holds its zero value (`omitempty`). -/
def encodeProduct (p : Product) : Json :=
  .obj ((if p.id = "" then [] else [("id", Json.str p.id)]) ++
        (if p.name = "" then [] else [("name", Json.str p.name)]) ++
        (if p.description = "" then [] else [("description", Json.str p.description)]) ++
        (if p.price = 0 then [] else [("price", Json.num p.price)]))

/-- Unmarshalling a JSON value into a string-typed struct field: a string
sets it, a null leaves the struct unchanged, anything else is a type
mismatch. -/
def setStrField (v : Json) (set : String → Product) (keep : Product) : Except GoError Product :=
  match v with
  | .str s => .ok (set s)
  | .null => .ok keep
  | w => .error (.decodeType "string" w.kind)

/-- Unmarshalling a JSON value into a number-typed struct field: a number
sets it, a null leaves the struct unchanged, anything else is a type
mismatch. -/
def setNumField (v : Json) (set : Rat → Product) (keep : Product) : Except GoError Product :=
  match v with
  | .num q => .ok (set q)
  | .null => .ok keep
  | w => .error (.decodeType "number" w.kind)

/-- Unmarshalling one object member into a `Product`, keyed by the JSON tag;
a key matching no field is ignored.  (`encoding/json` would additionally
accept a case-insensitive key match; the tags here are already lower-case
and no claim depends on that fallback.) -/
def setProductField (p : Product) (key : String) (v : Json) : Except GoError Product :=
  if key = "id" then setStrField v (fun s => { p with id := s }) p
  else if key = "name" then setStrField v (fun s => { p with name := s }) p
  else if key = "description" then setStrField v (fun s => { p with description := s }) p
  else if key = "price" then setNumField v (fun q => { p with price := q }) p
  else .ok p

/-- Process the members of a JSON object in order, so a duplicated key keeps
its last value.  (`encoding/json` records the first field error but keeps
decoding; since the handlers discard the partial value whenever the error is
non-nil, stopping at the first error is observationally the same here.) -/
def unmarshalFields (p : Product) : List (String × Json) → Except GoError Product
  | [] => .ok p
  | (k, v) :: rest =>
      match setProductField p k v with
      | .error e => .error e
      | .ok q => unmarshalFields q rest

/-- Unmarshalling a JSON value into `Product`: null is a no-op (the zero
value survives), an object is decoded member-wise, any other kind is a type
mismatch. -/
def unmarshalProduct : Json → Except GoError Product
  | .null => .ok {}
  | .obj fields => unmarshalFields {} fields
  | j => .error (.decodeType "object" j.kind)

/-- `json.NewDecoder(r.Body).Decode(&p)` for the Create path: an unreadable
or non-well-formed body (`none`) is a syntax/EOF error, otherwise the parsed
value is unmarshalled. -/
def decodeProduct : Option Json → Except GoError Product
  | none => .error .decodeSyntax
  | some j => unmarshalProduct j

/-- `json.NewDecoder(r.Body).Decode(&upd)` for the Update path.
`ProductUpdate` has no fields, so every member of an object body is an
ignored unknown key; only a body of the wrong top-level kind fails. -/
def decodeUpdate : Option Json → Except GoError ProductUpdate
  | none => .error .decodeSyntax
  | some .null => .ok {}
  | some (.obj _) => .ok {}
  | some j => .error (.decodeType "object" j.kind)

/-- The query-string keys that correspond to a `ProductFilter` field: the
struct is empty, so there are none. -/
def productFilterFieldNames : List String := []

/-- `gorilla/schema` decoding of the query string into `ProductFilter`.
Each key is looked up among the destination's fields; a key matching no
field is skipped when `ignoreUnknown` is set and is an unknown-key error
otherwise.  With the empty `ProductFilter` no per-field value conversion
ever runs. -/
def schemaDecodeFilter (ignoreUnknown : Bool) (query : List (String × String)) :
    Except GoError ProductFilter :=
  match query.find? (fun kv => !(productFilterFieldNames.contains kv.1)) with
  | some kv => if ignoreUnknown then .ok {} else .error (.decodeUnknownKey kv.1)
  | none => .ok {}

/-- An inbound HTTP request, as the handlers observe it: the `{productID}`
route variable when the matched route has one, the body as a parsed JSON
value (`none` when unreadable or not well-formed), and the query string. -/
structure Request where
  pathID : Option String := none
  body : Option Json := none
  query : List (String × String) := []

/-- `mux.Vars(r)["productID"]`: a map lookup returning the zero value, the
empty string, when the segment is absent. -/
def idFromRequest (r : Request) : String :=
  r.pathID.getD ""

/-- `log/slog` levels. -/
inductive LogLevel where
  | debug
  | info
  | warn
  | error
deriving DecidableEq

/-- A structured log attribute value: the handlers log string attributes and
error attributes. -/
inductive AttrVal where
  | str (s : String)
  | err (e : GoError)
deriving DecidableEq

/-- One emitted log record: level, message, and key/value attributes. -/
structure LogEntry where
  level : LogLevel
  msg : String
  attrs : List (String × AttrVal)
deriving DecidableEq

/-- The HTTP response a handler writes: status code, headers in the order
they were set, and the JSON body if one was encoded. -/
structure Response where
  status : Nat
  headers : List (String × String) := []
  body : Option Json := none

/-- Everything observable about one handler invocation: the response
written, the log entries emitted, and whether the backing service operation
was invoked. -/
structure HandlerResult where
  response : Response
  logs : List LogEntry := []
  serviceCalled : Bool

/-- The `Service` interface: the five operations the handler delegates to,
each returning a result or an error.  (The Go context parameter carries no
information the handlers inspect and is elided.) -/
structure Service where
  createProduct : Product → Except GoError Product
  getProduct : String → Except GoError Product
  listProducts : ProductFilter → Except GoError (List Product)
  updateProduct : String → ProductUpdate → Except GoError Product
  deleteProduct : String → Option GoError

/-- POST /products (src/shop.go `Handler.CreateProduct`): decode the body
into a `Product` (400 on failure, service not called); call the service
(any error: log at info and 500); on success set `Location` and
`Content-Type`, write 201 and the encoded product. -/
def Handler.CreateProduct (svc : Service) (r : Request) : HandlerResult :=
  match decodeProduct r.body with
  | .error _ =>
      { response := { status := 400 }, serviceCalled := false }
  | .ok p =>
      match svc.createProduct p with
      | .error err =>
          { response := { status := 500 },
            logs := [⟨.info, "failed to create product", [("error", .err err)]⟩],
            serviceCalled := true }
      | .ok product =>
          { response :=
              { status := 201,
                headers := [("Location", "/products/" ++ product.id),
                            ("Content-Type", "application/json")],
                body := some (encodeProduct product) },
            serviceCalled := true }

/-- GET /products/{productID} (src/shop.go `Handler.GetProduct`): call the
service with the extracted id; a NotFound error is 404 unlogged, any other
error is logged at info and 500; success is 200 with the encoded product. -/
def Handler.GetProduct (svc : Service) (r : Request) : HandlerResult :=
  let id := idFromRequest r
  match svc.getProduct id with
  | .error err =>
      if errorsIs err .errNotFound then
        { response := { status := 404 }, serviceCalled := true }
      else
        { response := { status := 500 },
          logs := [⟨.info, "failed to get product", [("id", .str id), ("error", .err err)]⟩],
          serviceCalled := true }
  | .ok product =>
      { response :=
          { status := 200,
            headers := [("Content-Type", "application/json")],
            body := some (encodeProduct product) },
        serviceCalled := true }

/-- GET /products (src/shop.go `Handler.ListProducts`): decode the query
string into a `ProductFilter` with unknown keys ignored (on failure, log at
info and 400 without calling the service); call the service (any error: log
at info and 500); success is 200 with the encoded list. -/
def Handler.ListProducts (svc : Service) (r : Request) : HandlerResult :=
  match schemaDecodeFilter true r.query with
  | .error err =>
      { response := { status := 400 },
        logs := [⟨.info, "failed to decode request", [("error", .err err)]⟩],
        serviceCalled := false }
  | .ok f =>
      match svc.listProducts f with
      | .error err =>
          { response := { status := 500 },
            logs := [⟨.info, "failed to list products", [("error", .err err)]⟩],
            serviceCalled := true }
      | .ok products =>
          { response :=
              { status := 200,
                headers := [("Content-Type", "application/json")],
                body := some (.arr (products.map encodeProduct)) },
            serviceCalled := true }

/-- PATCH /products/{productID} (src/shop.go `Handler.UpdateProduct`):
decode the body into a `ProductUpdate` (400 on failure, service not
called); call the service with the extracted id; a NotFound error is 404
unlogged, any other error is logged at info and 500; success is 200 with
the encoded product. -/
def Handler.UpdateProduct (svc : Service) (r : Request) : HandlerResult :=
  let id := idFromRequest r
  match decodeUpdate r.body with
  | .error _ =>
      { response := { status := 400 }, serviceCalled := false }
  | .ok upd =>
      match svc.updateProduct id upd with
      | .error err =>
          if errorsIs err .errNotFound then
            { response := { status := 404 }, serviceCalled := true }
          else
            { response := { status := 500 },
              logs := [⟨.info, "failed to update product", [("id", .str id), ("error", .err err)]⟩],
              serviceCalled := true }
      | .ok product =>
          { response :=
              { status := 200,
                headers := [("Content-Type", "application/json")],
                body := some (encodeProduct product) },
            serviceCalled := true }

/-- DELETE /products/{productID} (src/shop.go `Handler.DeleteProduct`): call
the service with the extracted id; a NotFound error is 404 unlogged, any
other error is logged at info and 500; success is 204 with no body. -/
def Handler.DeleteProduct (svc : Service) (r : Request) : HandlerResult :=
  let id := idFromRequest r
  match svc.deleteProduct id with
  | some err =>
      if errorsIs err .errNotFound then
        { response := { status := 404 }, serviceCalled := true }
      else
        { response := { status := 500 },
          logs := [⟨.info, "failed to delete product", [("id", .str id), ("error", .err err)]⟩],
          serviceCalled := true }
  | none =>
      { response := { status := 204 }, serviceCalled := true }

/-! Concrete service fixtures used to instantiate the theorems. -/

/-- A backing service holding one product: Create assigns id "42", the other
operations succeed on id "42" and report the NotFound sentinel otherwise. -/
def svcAssign42 : Service where
  createProduct := fun p => .ok { p with id := "42" }
  getProduct := fun i => if i = "42" then .ok { id := "42", name := "X" } else .error .errNotFound
  listProducts := fun _ => .ok [{ id := "42", name := "X" }]
  updateProduct := fun i _ => if i = "42" then .ok { id := "42", name := "X" } else .error .errNotFound
  deleteProduct := fun i => if i = "42" then none else some .errNotFound

/-- A backing service whose every operation fails with a non-NotFound error. -/
def svcDown : Service where
  createProduct := fun _ => .error (.base 7 "db down")
  getProduct := fun _ => .error (.base 7 "db down")
  listProducts := fun _ => .error (.base 7 "db down")
  updateProduct := fun _ _ => .error (.base 7 "db down")
  deleteProduct := fun _ => some (.base 7 "db down")

/-- A backing service whose every operation fails with the NotFound sentinel
wrapped inside another error, as `fmt.Errorf("...: %w", ErrNotFound)` would
produce. -/
def svcWrapped : Service where
  createProduct := fun _ => .error (.wrap "create" .errNotFound)
  getProduct := fun _ => .error (.wrap "fetch row" .errNotFound)
  listProducts := fun _ => .error (.wrap "list" .errNotFound)
  updateProduct := fun _ _ => .error (.wrap "update row" .errNotFound)
  deleteProduct := fun _ => some (.wrap "delete row" .errNotFound)

/-! Helper lemmas shared by the claim theorems. -/

/-- With unknown keys ignored and a filter type that has no fields, query
decoding cannot fail: it yields the empty filter on every query string. -/
theorem schemaDecodeFilter_ignore_ok (query : List (String × String)) :
    schemaDecodeFilter true query = .ok {} := by
  unfold schemaDecodeFilter
  cases query.find? (fun kv => !(productFilterFieldNames.contains kv.1)) <;> simp

/-- `errors.Is` against the NotFound sentinel holds exactly when the sentinel
occurs in the error's wrapping chain. -/
theorem errorsIs_notFound_iff_mem_chain (err : GoError) :
    errorsIs err .errNotFound = true ↔ GoError.errNotFound ∈ err.chain := by
  induction err with
  | wrap m inner ih => simp [errorsIs, GoError.chain, GoError.idEq, ih]
  | _ => simp [errorsIs, GoError.chain, GoError.idEq]

/-! The claim theorems. -/

/-- C1: for every request whose body is malformed JSON (not well-formed, or
structurally incompatible with `Product` resp. `ProductUpdate`), the Create
and Update handlers respond 400 and never invoke the service operation. -/
theorem create_update_malformed_body_400_service_not_called
    (svc : Service) (r : Request) :
    ((∃ e, decodeProduct r.body = .error e) →
      (Handler.CreateProduct svc r).response.status = 400 ∧
      (Handler.CreateProduct svc r).serviceCalled = false) ∧
    ((∃ e, decodeUpdate r.body = .error e) →
      (Handler.UpdateProduct svc r).response.status = 400 ∧
      (Handler.UpdateProduct svc r).serviceCalled = false) := by
  constructor
  · rintro ⟨e, he⟩
    simp [Handler.CreateProduct, he]
  · rintro ⟨e, he⟩
    simp [Handler.UpdateProduct, he]

/-- C1 witness: a body that is a bare JSON string is rejected with 400 by
both Create and Update without the service being called. -/
theorem create_update_malformed_body_400_service_not_called_witness :
    (Handler.CreateProduct svcAssign42 { body := some (Json.str "oops") }).response.status = 400 ∧
    (Handler.CreateProduct svcAssign42 { body := some (Json.str "oops") }).serviceCalled = false ∧
    (Handler.UpdateProduct svcAssign42 { body := some (Json.str "oops") }).response.status = 400 ∧
    (Handler.UpdateProduct svcAssign42 { body := some (Json.str "oops") }).serviceCalled = false := by
  have h := create_update_malformed_body_400_service_not_called svcAssign42
    { body := some (Json.str "oops") }
  exact ⟨(h.1 ⟨_, rfl⟩).1, (h.1 ⟨_, rfl⟩).2, (h.2 ⟨_, rfl⟩).1, (h.2 ⟨_, rfl⟩).2⟩

/-- C2: whenever the service reports a NotFound error on Get, Update or
Delete, the handler responds 404 and emits no log entry. -/
theorem notfound_404_no_log
    (svc : Service) (r : Request) (err : GoError)
    (hnf : errorsIs err .errNotFound = true) :
    (svc.getProduct (idFromRequest r) = .error err →
      (Handler.GetProduct svc r).response.status = 404 ∧
      (Handler.GetProduct svc r).logs = []) ∧
    (∀ upd, decodeUpdate r.body = .ok upd →
      svc.updateProduct (idFromRequest r) upd = .error err →
      (Handler.UpdateProduct svc r).response.status = 404 ∧
      (Handler.UpdateProduct svc r).logs = []) ∧
    (svc.deleteProduct (idFromRequest r) = some err →
      (Handler.DeleteProduct svc r).response.status = 404 ∧
      (Handler.DeleteProduct svc r).logs = []) := by
  refine ⟨fun h => ?_, fun upd hupd h => ?_, fun h => ?_⟩
  · simp [Handler.GetProduct, h, hnf]
  · simp [Handler.UpdateProduct, hupd, h, hnf]
  · simp [Handler.DeleteProduct, h, hnf]

/-- C2 witness: `svcAssign42` reports NotFound for id "9", and Get, Update
and Delete each respond 404 with no log entry. -/
theorem notfound_404_no_log_witness :
    (Handler.GetProduct svcAssign42 { pathID := some "9" }).response.status = 404 ∧
    (Handler.UpdateProduct svcAssign42
        { pathID := some "9", body := some (Json.obj []) }).response.status = 404 ∧
    (Handler.UpdateProduct svcAssign42
        { pathID := some "9", body := some (Json.obj []) }).logs = [] ∧
    (Handler.DeleteProduct svcAssign42 { pathID := some "9" }).logs = [] := by
  have hget := (notfound_404_no_log svcAssign42 { pathID := some "9" }
    GoError.errNotFound rfl).1 rfl
  have hupd := (notfound_404_no_log svcAssign42
    { pathID := some "9", body := some (Json.obj []) }
    GoError.errNotFound rfl).2.1 {} rfl rfl
  have hdel := (notfound_404_no_log svcAssign42 { pathID := some "9" }
    GoError.errNotFound rfl).2.2 rfl
  exact ⟨hget.1, hupd.1, hupd.2, hdel.2⟩

/-- C3: whenever the service fails with a non-NotFound error on Get, Update
or Delete, the handler responds 500 and emits exactly one log entry, at info
level, whose message names the operation and whose attributes carry the
identifier and the error. -/
theorem service_failure_500_logged_once
    (svc : Service) (r : Request) (err : GoError)
    (hnf : errorsIs err .errNotFound = false) :
    (svc.getProduct (idFromRequest r) = .error err →
      (Handler.GetProduct svc r).response.status = 500 ∧
      (Handler.GetProduct svc r).logs =
        [⟨.info, "failed to get product",
          [("id", .str (idFromRequest r)), ("error", .err err)]⟩]) ∧
    (∀ upd, decodeUpdate r.body = .ok upd →
      svc.updateProduct (idFromRequest r) upd = .error err →
      (Handler.UpdateProduct svc r).response.status = 500 ∧
      (Handler.UpdateProduct svc r).logs =
        [⟨.info, "failed to update product",
          [("id", .str (idFromRequest r)), ("error", .err err)]⟩]) ∧
    (svc.deleteProduct (idFromRequest r) = some err →
      (Handler.DeleteProduct svc r).response.status = 500 ∧
      (Handler.DeleteProduct svc r).logs =
        [⟨.info, "failed to delete product",
          [("id", .str (idFromRequest r)), ("error", .err err)]⟩]) := by
  refine ⟨fun h => ?_, fun upd hupd h => ?_, fun h => ?_⟩
  · simp [Handler.GetProduct, h, hnf]
  · simp [Handler.UpdateProduct, hupd, h, hnf]
  · simp [Handler.DeleteProduct, h, hnf]

/-- C3 witness: against `svcDown`, whose failure is a plain non-NotFound
error, Get responds 500 with exactly the one expected info log entry, and
so does Delete. -/
theorem service_failure_500_logged_once_witness :
    (Handler.GetProduct svcDown { pathID := some "42" }).response.status = 500 ∧
    (Handler.GetProduct svcDown { pathID := some "42" }).logs =
      [⟨.info, "failed to get product",
        [("id", .str "42"), ("error", .err (.base 7 "db down"))]⟩] ∧
    (Handler.DeleteProduct svcDown { pathID := some "42" }).response.status = 500 := by
  have h := service_failure_500_logged_once svcDown { pathID := some "42" }
    (GoError.base 7 "db down") rfl
  exact ⟨(h.1 rfl).1, (h.1 rfl).2, (h.2.2 rfl).1⟩

/-- C4 counterexample: a bare-string Create body is a decode failure and the
handler responds 400, yet no log entry is emitted — refuting the claim that
every decode failure is logged by the decoder's caller. -/
theorem decode_failure_always_logged_counterexample :
    decodeProduct (some (Json.str "oops")) = .error (.decodeType "object" "string") ∧
    (Handler.CreateProduct svcAssign42 { body := some (Json.str "oops") }).response.status = 400 ∧
    (Handler.CreateProduct svcAssign42 { body := some (Json.str "oops") }).logs = [] :=
  ⟨rfl, rfl, rfl⟩

/-- C4 amended: every decode failure is answered with 400, but only the
query-string path logs it.  Body-decode failures on Create and Update
produce 400 with no log entry; and with the fieldless `ProductFilter` and
unknown keys ignored, the List query decoder cannot fail at all, so its
logging 400 branch is unreachable. -/
theorem decode_failure_400_logging_split (svc : Service) (r : Request) :
    ((∃ e, decodeProduct r.body = .error e) →
      (Handler.CreateProduct svc r).response.status = 400 ∧
      (Handler.CreateProduct svc r).logs = []) ∧
    ((∃ e, decodeUpdate r.body = .error e) →
      (Handler.UpdateProduct svc r).response.status = 400 ∧
      (Handler.UpdateProduct svc r).logs = []) ∧
    schemaDecodeFilter true r.query = .ok {} := by
  refine ⟨?_, ?_, schemaDecodeFilter_ignore_ok r.query⟩
  · rintro ⟨e, he⟩
    simp [Handler.CreateProduct, he]
  · rintro ⟨e, he⟩
    simp [Handler.UpdateProduct, he]

/-- C4 amended witness: a malformed Update body gets 400 with no log, and a
query of only unrecognized keys decodes to the empty filter. -/
theorem decode_failure_400_logging_split_witness :
    (Handler.UpdateProduct svcAssign42
        { body := some (Json.num 3) }).response.status = 400 ∧
    (Handler.UpdateProduct svcAssign42 { body := some (Json.num 3) }).logs = [] ∧
    schemaDecodeFilter true [("colour", "red")] = .ok {} := by
  have h := decode_failure_400_logging_split svcAssign42
    { body := some (Json.num 3), query := [("colour", "red")] }
  exact ⟨(h.2.1 ⟨_, rfl⟩).1, (h.2.1 ⟨_, rfl⟩).2, h.2.2⟩

/-- C5: when a Create body decodes to `p` and the service returns `product`,
the response is 201 with `Location: /products/{id}` and
`Content-Type: application/json`, and the body is the entity's JSON with
every empty field omitted — in particular Entity{name:"X"} with assigned id
"42" serializes to an object holding only the id and name members. -/
theorem create_success_201_location_encoded_body
    (svc : Service) (r : Request) (p product : Product)
    (hdec : decodeProduct r.body = .ok p)
    (hsvc : svc.createProduct p = .ok product) :
    Handler.CreateProduct svc r =
      { response :=
          { status := 201,
            headers := [("Location", "/products/" ++ product.id),
                        ("Content-Type", "application/json")],
            body := some (encodeProduct product) },
        logs := [],
        serviceCalled := true } ∧
    encodeProduct { id := "42", name := "X" } =
      .obj [("id", .str "42"), ("name", .str "X")] := by
  refine ⟨?_, rfl⟩
  simp [Handler.CreateProduct, hdec, hsvc]

/-- C5 witness: posting `{"name":"X"}` to `svcAssign42`, which assigns id
"42", yields 201, `Location: /products/42`, and body `{"id":"42","name":"X"}`. -/
theorem create_success_201_location_encoded_body_witness :
    Handler.CreateProduct svcAssign42 { body := some (Json.obj [("name", .str "X")]) } =
      { response :=
          { status := 201,
            headers := [("Location", "/products/42"),
                        ("Content-Type", "application/json")],
            body := some (.obj [("id", .str "42"), ("name", .str "X")]) },
        logs := [],
        serviceCalled := true } := by
  have h := (create_success_201_location_encoded_body svcAssign42
    { body := some (Json.obj [("name", .str "X")]) }
    { name := "X" } { id := "42", name := "X" } rfl rfl).1
  simpa [encodeProduct] using h

/-- C6: whenever the service's delete succeeds, the handler responds 204
with no headers set, an empty body, and no log entry, independently of the
deleted entity's content (the delete path never touches an entity). -/
theorem delete_success_204_empty_body
    (svc : Service) (r : Request)
    (h : svc.deleteProduct (idFromRequest r) = none) :
    Handler.DeleteProduct svc r =
      { response := { status := 204, headers := [], body := none },
        logs := [],
        serviceCalled := true } := by
  simp [Handler.DeleteProduct, h]

/-- C6 witness: deleting id "42" against `svcAssign42` yields 204 with an
empty body. -/
theorem delete_success_204_empty_body_witness :
    Handler.DeleteProduct svcAssign42 { pathID := some "42" } =
      { response := { status := 204, headers := [], body := none },
        logs := [],
        serviceCalled := true } :=
  delete_success_204_empty_body svcAssign42 { pathID := some "42" } rfl

/-- C7: a query string containing only keys that match no `ProductFilter`
field never produces a decode error: the filter decodes to the
all-unconstrained (fieldless) value, the service is invoked, and the
response is never the decode-failure 400. -/
theorem list_unknown_keys_tolerated
    (svc : Service) (r : Request)
    (_h : ∀ kv ∈ r.query, ¬ productFilterFieldNames.contains kv.1) :
    schemaDecodeFilter true r.query = .ok ProductFilter.mk ∧
    (Handler.ListProducts svc r).serviceCalled = true ∧
    (Handler.ListProducts svc r).response.status ≠ 400 := by
  have hdec := schemaDecodeFilter_ignore_ok r.query
  refine ⟨hdec, ?_, ?_⟩ <;>
    cases hsvc : svc.listProducts {} <;>
      simp [Handler.ListProducts, hdec, hsvc]

/-- C7 witness: a query of two unrecognized keys decodes to the empty filter
and List reaches the service. -/
theorem list_unknown_keys_tolerated_witness :
    schemaDecodeFilter true [("colour", "red"), ("sort", "asc")] = .ok ProductFilter.mk ∧
    (Handler.ListProducts svcAssign42
      { query := [("colour", "red"), ("sort", "asc")] }).serviceCalled = true := by
  have h := list_unknown_keys_tolerated svcAssign42
    { query := [("colour", "red"), ("sort", "asc")] } (by decide)
  exact ⟨h.1, h.2.1⟩

/-- C8: serializing any `Product` to its JSON wire form and unmarshalling
that JSON back yields the original product exactly — every set field
survives, and every omitted (empty) field comes back as its zero value. -/
theorem encode_decode_roundtrip (p : Product) :
    decodeProduct (some (encodeProduct p)) = .ok p := by
  obtain ⟨i, n, d, q⟩ := p
  by_cases h1 : i = "" <;> by_cases h2 : n = "" <;>
    by_cases h3 : d = "" <;> by_cases h4 : q = 0 <;>
      simp [encodeProduct, decodeProduct, unmarshalProduct, unmarshalFields,
        setProductField, setStrField, setNumField, h1, h2, h3, h4]

/-- C9: when the matched route carries no `{productID}` segment, extraction
yields the empty string; the Get handler has no decode-error path for the
identifier (it can never answer 400), and an empty identifier the service
reports as NotFound is answered 404. -/
theorem empty_id_treated_as_not_found (svc : Service) (r : Request) :
    (r.pathID = none → idFromRequest r = "") ∧
    (∀ err, r.pathID = none → svc.getProduct "" = .error err →
      errorsIs err .errNotFound = true →
      (Handler.GetProduct svc r).response.status = 404) ∧
    (Handler.GetProduct svc r).response.status ≠ 400 := by
  refine ⟨fun habs => by simp [idFromRequest, habs], ?_, ?_⟩
  · intro err habs hsvc hnf
    have hid : idFromRequest r = "" := by simp [idFromRequest, habs]
    simp [Handler.GetProduct, hid, hsvc, hnf]
  · cases hsvc : svc.getProduct (idFromRequest r) with
    | error err =>
        cases hnf : errorsIs err .errNotFound <;>
          simp [Handler.GetProduct, hsvc, hnf]
    | ok product => simp [Handler.GetProduct, hsvc]

/-- C9 witness: on a request with no path variable, against `svcAssign42`
(which reports NotFound for the empty id), extraction yields "" and Get
responds 404, not 400. -/
theorem empty_id_treated_as_not_found_witness :
    idFromRequest { pathID := none } = "" ∧
    (Handler.GetProduct svcAssign42 { pathID := none }).response.status = 404 ∧
    (Handler.GetProduct svcAssign42 { pathID := none }).response.status ≠ 400 := by
  have h := empty_id_treated_as_not_found svcAssign42 { pathID := none }
  exact ⟨h.1 rfl, h.2.1 GoError.errNotFound rfl rfl rfl, h.2.2⟩

/-- C10: classification on Get, Update and Delete is closed under error
wrapping: a service error whose wrapping chain contains the `ErrNotFound`
sentinel is answered 404 without logging, and one whose chain does not
contain it is answered 500. -/
theorem classification_closed_under_wrapping
    (svc : Service) (r : Request) (err : GoError) :
    (svc.getProduct (idFromRequest r) = .error err →
      (GoError.errNotFound ∈ err.chain →
        (Handler.GetProduct svc r).response.status = 404 ∧
        (Handler.GetProduct svc r).logs = []) ∧
      (GoError.errNotFound ∉ err.chain →
        (Handler.GetProduct svc r).response.status = 500)) ∧
    (∀ upd, decodeUpdate r.body = .ok upd →
      svc.updateProduct (idFromRequest r) upd = .error err →
      (GoError.errNotFound ∈ err.chain →
        (Handler.UpdateProduct svc r).response.status = 404 ∧
        (Handler.UpdateProduct svc r).logs = []) ∧
      (GoError.errNotFound ∉ err.chain →
        (Handler.UpdateProduct svc r).response.status = 500)) ∧
    (svc.deleteProduct (idFromRequest r) = some err →
      (GoError.errNotFound ∈ err.chain →
        (Handler.DeleteProduct svc r).response.status = 404 ∧
        (Handler.DeleteProduct svc r).logs = []) ∧
      (GoError.errNotFound ∉ err.chain →
        (Handler.DeleteProduct svc r).response.status = 500)) := by
  refine ⟨fun h => ⟨fun hmem => ?_, fun hmem => ?_⟩,
    fun upd hupd h => ⟨fun hmem => ?_, fun hmem => ?_⟩,
    fun h => ⟨fun hmem => ?_, fun hmem => ?_⟩⟩
  · have hnf := (errorsIs_notFound_iff_mem_chain err).mpr hmem
    simp [Handler.GetProduct, h, hnf]
  · have hnf : errorsIs err .errNotFound = false := by
      cases hb : errorsIs err .errNotFound with
      | false => rfl
      | true => exact absurd ((errorsIs_notFound_iff_mem_chain err).mp hb) hmem
    simp [Handler.GetProduct, h, hnf]
  · have hnf := (errorsIs_notFound_iff_mem_chain err).mpr hmem
    simp [Handler.UpdateProduct, hupd, h, hnf]
  · have hnf : errorsIs err .errNotFound = false := by
      cases hb : errorsIs err .errNotFound with
      | false => rfl
      | true => exact absurd ((errorsIs_notFound_iff_mem_chain err).mp hb) hmem
    simp [Handler.UpdateProduct, hupd, h, hnf]
  · have hnf := (errorsIs_notFound_iff_mem_chain err).mpr hmem
    simp [Handler.DeleteProduct, h, hnf]
  · have hnf : errorsIs err .errNotFound = false := by
      cases hb : errorsIs err .errNotFound with
      | false => rfl
      | true => exact absurd ((errorsIs_notFound_iff_mem_chain err).mp hb) hmem
    simp [Handler.DeleteProduct, h, hnf]

/-- C10 witness: against `svcWrapped`, whose errors wrap `ErrNotFound`, Get
and Delete answer 404 without logging; against `svcDown`, whose error chain
does not contain the sentinel, Get answers 500. -/
theorem classification_closed_under_wrapping_witness :
    (Handler.GetProduct svcWrapped { pathID := some "9" }).response.status = 404 ∧
    (Handler.DeleteProduct svcWrapped { pathID := some "9" }).logs = [] ∧
    (Handler.GetProduct svcDown { pathID := some "9" }).response.status = 500 := by
  have hw := classification_closed_under_wrapping svcWrapped { pathID := some "9" }
    (.wrap "fetch row" .errNotFound)
  have hwdel := classification_closed_under_wrapping svcWrapped { pathID := some "9" }
    (.wrap "delete row" .errNotFound)
  have hd := classification_closed_under_wrapping svcDown { pathID := some "9" }
    (.base 7 "db down")
  exact ⟨((hw.1 rfl).1 (by decide)).1, ((hwdel.2.2 rfl).1 (by decide)).2,
    (hd.1 rfl).2 (by decide)⟩

end Shop
